import Mathlib

/-!
Verification of the batched bulk-write engine with partial-failure rollback
(`server/services/airtable.ts`), the bulk HTTP endpoints (`server/routes.ts`)
and the rate-limit middleware, as a shallow embedding.

The backend (Airtable) is modelled as an oracle of deterministic call
functions (`Backend`).  Each service method is embedded as a pure function
that returns its result together with the ordered trace of backend calls it
issued, so that properties about which calls reach the backend (compensating
deletes, write calls, and so on) are statable.
-/

namespace ISO9000bot

/-- A field mapping (`Record<string, any>` in the source).  Field values are
an arbitrary type `V`; keys are the backend-defined column names. -/
abbrev Flds (V : Type) := List (String × V)

/-- An Airtable record as the service returns it:
`{id, fields, createdTime}` (`shared/schema.ts`, `airtableRecordSchema`). -/
structure Rec (V : Type) where
  id : String
  fields : Flds V
  createdTime : String
deriving DecidableEq, Repr

/-- A bulk-update item `{id, fields}` (`updateRecords` argument element). -/
structure UpdItem (V : Type) where
  id : String
  fields : Flds V
deriving DecidableEq, Repr

/-- A raw backend (Airtable API) error: the source branches on
`error.statusCode` (404 / 422) and reads `error.message`. -/
structure BErr where
  statusCode : Option Nat
  message : String
deriving DecidableEq, Repr

/-- One backend call as issued by the service layer.  The trace of these
calls is what the rollback claims quantify over. -/
inductive Call (V : Type) where
  | createCall (batch : List (Flds V))
  | updateCall (batch : List (UpdItem V))
  | deleteCall (ids : List String)
  | findCall (recordId : String)
deriving DecidableEq, Repr

/-- The backend oracle: one deterministic function per call kind, mirroring
`this.base(tableName).create/update/destroy/find`. -/
structure Backend (V : Type) where
  createB : List (Flds V) → Except BErr (List (Rec V))
  updateB : List (UpdItem V) → Except BErr (List (Rec V))
  deleteB : List String → Except BErr Unit
  findB : String → Except BErr (Rec V)

/-- `isValidTable` (`airtable.ts` lines 60-64): if the set of valid tables is
empty (metadata never fetched, fetch failed, or no tables), every name is
accepted; otherwise membership is checked.  The `Set<string>` is modelled as
a list of its elements. -/
def isValidTable (validTables : List String) (tableName : String) : Bool :=
  validTables.isEmpty || validTables.contains tableName

/-- Fuel-indexed batching loop.  `chunk10Fuel f l` slices `l` into
`take 10 / drop 10` pieces as long as fuel and elements remain; with
`f ≥ l.length` it realises the source loop
`for (i = 0; i < n; i += batchSize) slice(i, i + batchSize)` exactly
(the fuel only bounds the recursion; it is never exhausted first). -/
def chunk10Fuel {α : Type} : Nat → List α → List (List α)
  | _, [] => []
  | 0, _ :: _ => []
  | fuel + 1, a :: l => ((a :: l).take 10) :: chunk10Fuel fuel ((a :: l).drop 10)

/-- The batch splitter (`batchSize = 10`, `airtable.ts` lines 188-192,
212-215, 286-289, 337-341): slices the input into contiguous groups of 10
in steps of 10. -/
def chunk10 {α : Type} (l : List α) : List (List α) :=
  chunk10Fuel l.length l

/-- The distinct error values the service layer can surface, one constructor
per `throw` site in `airtable.ts` (plus `backendRaw` for a re-thrown raw
backend error). -/
inductive SvcError where
  | tableNotFound (tableName : String)
  | recordNotFoundIn (recordId : String) (tableName : String)
  | invalidFieldData (msg : String)
  | bulkRecordsNotFound (tableName : String)
  | cannotFetchOriginal (recordId : String) (msg : String)
  | createRollbackFailed (origMsg : String) (count : Nat)
  | updateRollbackFailed (origMsg : String) (count : Nat)
  | backendRaw (e : BErr)
deriving DecidableEq, Repr

/-- The `error.message` string carried by each service error, mirroring the
exact string templates of the source (`\x27` is the ASCII apostrophe). -/
def renderMessage : SvcError → String
  | .tableNotFound t => "Table \x27" ++ t ++ "\x27 not found in base"
  | .recordNotFoundIn rid t =>
      "Record \x27" ++ rid ++ "\x27 not found in table \x27" ++ t ++ "\x27"
  | .invalidFieldData m => "Invalid field data: " ++ m
  | .bulkRecordsNotFound t =>
      "One or more records not found in table \x27" ++ t ++ "\x27"
  | .cannotFetchOriginal rid m =>
      "Cannot fetch original record " ++ rid ++ " for rollback support: " ++ m
  | .createRollbackFailed orig n =>
      orig ++ ". WARNING: Failed to rollback " ++ toString n ++
        " partially created records. Manual cleanup may be required."
  | .updateRollbackFailed orig n =>
      orig ++ ". WARNING: Failed to rollback " ++ toString n ++
        " partially updated records. Manual restoration may be required."
  | .backendRaw e => e.message

/-- `createRecords` catch tail (`airtable.ts` lines 246-249): a backend 422
becomes `Invalid field data`, anything else is re-thrown raw. -/
def classifyCreateErr (e : BErr) : SvcError :=
  if e.statusCode = some 422 then .invalidFieldData e.message else .backendRaw e

/-- The `originalError` string built inside the create rollback-failure
branch (`airtable.ts` lines 240-241). -/
def createOrigMsg (e : BErr) : String :=
  if e.statusCode = some 422 then "Invalid field data: " ++ e.message
  else e.message

/-- `updateRecords` catch tail (`airtable.ts` lines 325-331): 404 then 422
are classified, anything else is re-thrown raw. -/
def classifyUpdateErr (tableName : String) (e : BErr) : SvcError :=
  if e.statusCode = some 404 then .bulkRecordsNotFound tableName
  else if e.statusCode = some 422 then .invalidFieldData e.message
  else .backendRaw e

/-- The `originalError` string built inside the update rollback-failure
branch (`airtable.ts` lines 317-320). -/
def updateOrigMsg (e : BErr) : String :=
  if e.statusCode = some 422 then "Invalid field data: " ++ e.message
  else if e.statusCode = some 404 then "One or more records not found"
  else e.message

/-- State accumulated by the `createRecords` batch loop (`airtable.ts`
lines 207-227): ids pushed for rollback, result records, failure of the
batch that aborted the loop (if any), and the trace of issued calls. -/
structure CreateLoopOut (V : Type) where
  ids : List String
  results : List (Rec V)
  failure : Option BErr
  trace : List (Call V)
deriving DecidableEq, Repr

/-- The sequential create-batch loop (`airtable.ts` lines 214-227): each
batch is sent to the backend; on success the returned records contribute
their ids and results, on failure the loop stops at that batch. -/
def runCreateLoop {V : Type} (B : Backend V) :
    List (List (Flds V)) → CreateLoopOut V
  | [] => { ids := [], results := [], failure := none, trace := [] }
  | b :: rest =>
    match B.createB b with
    | .error e =>
        { ids := [], results := [], failure := some e,
          trace := [Call.createCall b] }
    | .ok recs =>
        let o := runCreateLoop B rest
        { ids := recs.map Rec.id ++ o.ids,
          results := recs ++ o.results,
          failure := o.failure,
          trace := Call.createCall b :: o.trace }

/-- The `deleteRecords` batch loop (`airtable.ts` lines 190-193): delete
calls in batches of 10, stopping at the first backend failure. -/
def deleteLoop {V : Type} (B : Backend V) :
    List (List String) → Option BErr × List (Call V)
  | [] => (none, [])
  | b :: rest =>
    match B.deleteB b with
    | .error e => (some e, [Call.deleteCall b])
    | .ok _ =>
        let o := deleteLoop B rest
        (o.1, Call.deleteCall b :: o.2)

/-- `deleteRecords` (`airtable.ts` lines 181-200): table pre-check, then
batched destroy calls; a 404 is wrapped, other errors re-thrown raw. -/
def deleteRecords {V : Type} (validTables : List String) (B : Backend V)
    (tableName : String) (recordIds : List String) :
    Except SvcError Unit × List (Call V) :=
  if !(isValidTable validTables tableName) then
    (.error (.tableNotFound tableName), [])
  else
    let o := deleteLoop B (chunk10 recordIds)
    match o.1 with
    | none => (.ok (), o.2)
    | some e =>
        (.error (if e.statusCode = some 404 then .bulkRecordsNotFound tableName
                 else .backendRaw e), o.2)

/-- `createRecords` (`airtable.ts` lines 202-251): table pre-check, batched
creates accumulating ids and results; on a batch failure, if any records
were already created, a compensating `deleteRecords` on exactly the
accumulated ids; if that rollback itself fails the surfaced error warns
about the accumulated count, otherwise the original error is classified. -/
def createRecords {V : Type} (validTables : List String) (B : Backend V)
    (tableName : String) (records : List (Flds V)) :
    Except SvcError (List (Rec V)) × List (Call V) :=
  if !(isValidTable validTables tableName) then
    (.error (.tableNotFound tableName), [])
  else
    let o := runCreateLoop B (chunk10 records)
    match o.failure with
    | none => (.ok o.results, o.trace)
    | some e =>
      if 0 < o.ids.length then
        let d := deleteRecords validTables B tableName o.ids
        match d.1 with
        | .ok _ => (.error (classifyCreateErr e), o.trace ++ d.2)
        | .error _ =>
            (.error (.createRollbackFailed (createOrigMsg e) o.ids.length),
             o.trace ++ d.2)
      else (.error (classifyCreateErr e), o.trace)

/-- `getRecord` (`airtable.ts` lines 100-119): table pre-check, single find
call, 404 wrapped into a record-not-found error. -/
def getRecord {V : Type} (validTables : List String) (B : Backend V)
    (tableName : String) (recordId : String) :
    Except SvcError (Rec V) × List (Call V) :=
  if !(isValidTable validTables tableName) then
    (.error (.tableNotFound tableName), [])
  else
    match B.findB recordId with
    | .ok r =>
        (.ok { id := r.id, fields := r.fields, createdTime := r.createdTime },
         [Call.findCall recordId])
    | .error e =>
        (.error (if e.statusCode = some 404 then
                   .recordNotFoundIn recordId tableName
                 else .backendRaw e),
         [Call.findCall recordId])

/-- The per-item snapshot filter (`airtable.ts` lines 269-274): keep, from
the original record, exactly the keys named by the requested update that
the original actually has (`hasOwnProperty`), with their original values. -/
def snapshotFields {V : Type} (reqFields origFields : Flds V) : Flds V :=
  (reqFields.map Prod.fst).filterMap
    (fun k => (origFields.lookup k).map (fun v => (k, v)))

/-- The snapshot-capture loop (`airtable.ts` lines 265-283): fetch every
original record before any write; the first fetch failure aborts with the
dedicated rollback-support error wrapping the fetch error message. -/
def snapshotLoop {V : Type} (validTables : List String) (B : Backend V)
    (tableName : String) :
    List (UpdItem V) → Except SvcError (List (UpdItem V)) × List (Call V)
  | [] => (.ok [], [])
  | it :: rest =>
    let g := getRecord validTables B tableName it.id
    match g.1 with
    | .error e =>
        (.error (.cannotFetchOriginal it.id (renderMessage e)), g.2)
    | .ok orig =>
        let s := snapshotLoop validTables B tableName rest
        match s.1 with
        | .error e => (.error e, g.2 ++ s.2)
        | .ok snaps =>
            (.ok ({ id := orig.id,
                    fields := snapshotFields it.fields orig.fields } :: snaps),
             g.2 ++ s.2)

/-- State accumulated by the `updateRecords` batch loop (`airtable.ts`
lines 288-301): `processed` is the `processedCount` counter. -/
structure UpdateLoopOut (V : Type) where
  processed : Nat
  results : List (Rec V)
  failure : Option BErr
  trace : List (Call V)
deriving DecidableEq, Repr

/-- The sequential update-batch loop (`airtable.ts` lines 288-301):
`processedCount` grows by the batch length after each successful batch. -/
def runUpdateLoop {V : Type} (B : Backend V) :
    List (List (UpdItem V)) → UpdateLoopOut V
  | [] => { processed := 0, results := [], failure := none, trace := [] }
  | b :: rest =>
    match B.updateB b with
    | .error e =>
        { processed := 0, results := [], failure := some e,
          trace := [Call.updateCall b] }
    | .ok recs =>
        let o := runUpdateLoop B rest
        { processed := b.length + o.processed,
          results := recs ++ o.results,
          failure := o.failure,
          trace := Call.updateCall b :: o.trace }

/-- `updateRecordsWithoutRollback` (`airtable.ts` lines 336-354): plain
batched updates, raw backend error propagation, no table pre-check. -/
def updateNoRollback {V : Type} (B : Backend V) (records : List (UpdItem V)) :
    Except BErr (List (Rec V)) × List (Call V) :=
  let o := runUpdateLoop B (chunk10 records)
  match o.failure with
  | none => (.ok o.results, o.trace)
  | some e => (.error e, o.trace)

/-- `updateRecords` (`airtable.ts` lines 253-333): table pre-check; snapshot
capture of all originals (abort on any fetch failure before any write);
batched updates; on a write failure after at least one committed batch, a
compensating restore of the first `processedCount` snapshots; rollback
failure surfaces the manual-restoration warning with `processedCount`. -/
def updateRecords {V : Type} (validTables : List String) (B : Backend V)
    (tableName : String) (records : List (UpdItem V)) :
    Except SvcError (List (Rec V)) × List (Call V) :=
  if !(isValidTable validTables tableName) then
    (.error (.tableNotFound tableName), [])
  else
    let s := snapshotLoop validTables B tableName records
    match s.1 with
    | .error e => (.error e, s.2)
    | .ok originals =>
      let o := runUpdateLoop B (chunk10 records)
      match o.failure with
      | none => (.ok o.results, s.2 ++ o.trace)
      | some e =>
        if 0 < o.processed ∧ 0 < originals.length then
          let r := updateNoRollback B (originals.take o.processed)
          match r.1 with
          | .ok _ =>
              (.error (classifyUpdateErr tableName e), s.2 ++ o.trace ++ r.2)
          | .error _ =>
              (.error (.updateRollbackFailed (updateOrigMsg e) o.processed),
               s.2 ++ o.trace ++ r.2)
        else (.error (classifyUpdateErr tableName e), s.2 ++ o.trace)

/-- All record ids passed to backend delete calls in a trace, in order. -/
def deletedIds {V : Type} (tr : List (Call V)) : List String :=
  (tr.filterMap (fun c => match c with
    | Call.deleteCall ids => some ids
    | _ => none)).flatten

/-- Whether a call is a backend write (create, update or delete). -/
def isWriteCall {V : Type} : Call V → Bool
  | Call.createCall _ => true
  | Call.updateCall _ => true
  | Call.deleteCall _ => true
  | Call.findCall _ => false

/-- Whether a service result is the table-pre-check error. -/
def isTableNotFoundErr {α : Type} : Except SvcError α → Bool
  | .error (.tableNotFound _) => true
  | _ => false

/-- Whether a string contains the substring "not found" (the check the route
error handlers perform with `error.message.includes("not found")`). -/
def containsNotFound (s : String) : Bool :=
  (s.splitOn "not found").length != 1

/-- A raw element of a bulk-create request body, before validation:
either it fails `createRecordSchema.safeParse` or it is `{fields}`. -/
inductive RawCreateItem (V : Type) where
  | malformed
  | wellFormed (fields : Flds V)
deriving DecidableEq, Repr

/-- A raw element of a bulk-update request body, before validation:
missing/non-string id, bad `fields`, or a well-formed `{id, fields}`. -/
inductive RawUpdateItem (V : Type) where
  | badId
  | badFields (id : String)
  | wellFormed (id : String) (fields : Flds V)
deriving DecidableEq, Repr

/-- An HTTP request body as the bulk endpoints see it: either not an array
at all, or an array of raw items. -/
inductive Body (I : Type) where
  | notArray
  | arr (items : List I)
deriving DecidableEq, Repr

/-- An HTTP response of a bulk endpoint: success with records and count, or
an error response with status and stable error code. -/
inductive HttpResp (V : Type) where
  | success (status : Nat) (records : List (Rec V)) (count : Nat)
  | failure (status : Nat) (code : String)
deriving DecidableEq, Repr

/-- The per-record validation loop of the bulk-create route (`routes.ts`
lines 864-882): the first malformed item aborts validation. -/
def validateCreateItems {V : Type} :
    List (RawCreateItem V) → Option (List (Flds V))
  | [] => some []
  | RawCreateItem.malformed :: _ => none
  | RawCreateItem.wellFormed f :: rest =>
      (validateCreateItems rest).map (fun l => f :: l)

/-- The per-record validation loop of the bulk-update route (`routes.ts`
lines 964-1002). -/
def validateUpdateItems {V : Type} :
    List (RawUpdateItem V) → Option (List (UpdItem V))
  | [] => some []
  | RawUpdateItem.badId :: _ => none
  | RawUpdateItem.badFields _ :: _ => none
  | RawUpdateItem.wellFormed i f :: rest =>
      (validateUpdateItems rest).map (fun l => { id := i, fields := f } :: l)

/-- The bulk-create endpoint handler (`routes.ts` lines 828-926):
non-array/empty body and the 100-record cap are rejected before validation,
which is rejected before any service call; service errors whose message
contains "not found" map to 404 TABLE_NOT_FOUND, others to 500. -/
def bulkCreateHandler {V : Type} (validTables : List String) (B : Backend V)
    (tableName : String) (body : Body (RawCreateItem V)) :
    HttpResp V × List (Call V) :=
  match body with
  | .notArray => (.failure 400 "INVALID_REQUEST_BODY", [])
  | .arr items =>
    if items.length = 0 then (.failure 400 "INVALID_REQUEST_BODY", [])
    else if 100 < items.length then (.failure 400 "BULK_LIMIT_EXCEEDED", [])
    else
      match validateCreateItems items with
      | none => (.failure 400 "INVALID_RECORD_DATA", [])
      | some recs =>
        let r := createRecords validTables B tableName recs
        match r.1 with
        | .ok rs => (.success 201 rs rs.length, r.2)
        | .error e =>
            (if containsNotFound (renderMessage e) then
               .failure 404 "TABLE_NOT_FOUND"
             else .failure 500 "AIRTABLE_ERROR", r.2)

/-- The bulk-update endpoint handler (`routes.ts` lines 929-1046): same
pre-checks; service errors whose message contains "not found" map to 404
RECORD_NOT_FOUND, others to 500. -/
def bulkUpdateHandler {V : Type} (validTables : List String) (B : Backend V)
    (tableName : String) (body : Body (RawUpdateItem V)) :
    HttpResp V × List (Call V) :=
  match body with
  | .notArray => (.failure 400 "INVALID_REQUEST_BODY", [])
  | .arr items =>
    if items.length = 0 then (.failure 400 "INVALID_REQUEST_BODY", [])
    else if 100 < items.length then (.failure 400 "BULK_LIMIT_EXCEEDED", [])
    else
      match validateUpdateItems items with
      | none => (.failure 400 "INVALID_RECORD_DATA", [])
      | some recs =>
        let r := updateRecords validTables B tableName recs
        match r.1 with
        | .ok rs => (.success 200 rs rs.length, r.2)
        | .error e =>
            (if containsNotFound (renderMessage e) then
               .failure 404 "RECORD_NOT_FOUND"
             else .failure 500 "AIRTABLE_ERROR", r.2)

/-- The `delayMs` function of `createSpeedLimiter` (rate-limit middleware,
lines 40-47): below the soft threshold 50 no delay, above it
`100 * 2 ^ min(hits - 50, 10)` milliseconds. -/
def delayMs (hits : Nat) : Nat :=
  if hits ≤ 50 then 0
  else 100 * 2 ^ (min (hits - 50) 10)

/-- Concrete test fixture: a backend on which every call succeeds; create
and update echo their input batch as records. -/
def okBackend : Backend Nat where
  createB b := .ok (b.map (fun f => { id := "id", fields := f, createdTime := "t0" }))
  updateB b := .ok (b.map (fun u => { id := u.id, fields := u.fields, createdTime := "t0" }))
  deleteB _ := .ok ()
  findB r := .ok { id := r, fields := [("g", 7)], createdTime := "t0" }

/-- Concrete test fixture: a backend whose single-record find always fails
with a 404, so snapshot capture cannot succeed. -/
def failFindBackend : Backend Nat where
  createB _ := .ok []
  updateB _ := .ok []
  deleteB _ := .ok ()
  findB _ := .error { statusCode := some 404, message := "nf" }

/-- Concrete test fixture: creates succeed only for full batches of 10 and
fail with a 422 otherwise; deletes succeed.  An 11-item request therefore
commits its first batch and fails on the second, and the compensating
delete succeeds. -/
def failTailCreateBackend : Backend Nat where
  createB b :=
    if b.length = 10 then
      .ok (b.map (fun f => { id := "cr", fields := f, createdTime := "t0" }))
    else .error { statusCode := some 422, message := "boom" }
  updateB _ := .ok []
  deleteB _ := .ok ()
  findB r := .ok { id := r, fields := [("g", 7)], createdTime := "t0" }

/-- Concrete test fixture: like `failTailCreateBackend` but every delete
also fails, so the compensating rollback of a create fails. -/
def failDeleteBackend : Backend Nat where
  createB b :=
    if b.length = 10 then
      .ok (b.map (fun f => { id := "cr", fields := f, createdTime := "t0" }))
    else .error { statusCode := some 422, message := "boom" }
  updateB _ := .ok []
  deleteB _ := .error { statusCode := none, message := "delfail" }
  findB r := .ok { id := r, fields := [("g", 7)], createdTime := "t0" }

/-- Concrete test fixture for the update path: finds succeed (original has
only field "g", so snapshots of updates to field "f" are empty), updates of
a batch with an empty-fields item fail (the rollback restore), updates of a
full batch of 10 succeed, and any other update fails with a 500. -/
def failTailUpdateBackend : Backend Nat where
  createB _ := .ok []
  updateB b :=
    if b.any (fun u => u.fields.isEmpty) then
      .error { statusCode := some 422, message := "rollfail" }
    else if b.length = 10 then
      .ok (b.map (fun u => { id := u.id, fields := u.fields, createdTime := "t0" }))
    else .error { statusCode := some 500, message := "wfail" }
  deleteB _ := .ok ()
  findB r := .ok { id := r, fields := [("g", 7)], createdTime := "t0" }

/-- Concrete test fixture: `n` distinct create items. -/
def witCreateInput (n : Nat) : List (Flds Nat) :=
  (List.range n).map (fun i => [("f", i)])

/-- Concrete test fixture: `n` distinct update items. -/
def witUpdateInput (n : Nat) : List (UpdItem Nat) :=
  (List.range n).map (fun i => { id := "u" ++ toString i, fields := [("f", i)] })

theorem chunk10Fuel_congr {α : Type} :
    ∀ (f₁ f₂ : Nat) (l : List α), l.length ≤ f₁ → l.length ≤ f₂ →
      chunk10Fuel f₁ l = chunk10Fuel f₂ l := by
  intro f₁
  induction f₁ with
  | zero =>
    intro f₂ l h₁ _
    cases l with
    | nil => cases f₂ <;> rfl
    | cons a t => simp at h₁
  | succ f ih =>
    intro f₂ l h₁ h₂
    cases l with
    | nil => cases f₂ <;> rfl
    | cons a t =>
      cases f₂ with
      | zero => simp at h₂
      | succ f₂ =>
        show ((a :: t).take 10) :: chunk10Fuel f ((a :: t).drop 10)
            = ((a :: t).take 10) :: chunk10Fuel f₂ ((a :: t).drop 10)
        have hlen : ((a :: t).drop 10).length = (a :: t).length - 10 := by
          simp
        have h₁d : ((a :: t).drop 10).length ≤ f := by
          rw [hlen]; omega
        have h₂d : ((a :: t).drop 10).length ≤ f₂ := by
          rw [hlen]; omega
        rw [ih _ _ h₁d h₂d]

theorem chunk10_nil {α : Type} : chunk10 ([] : List α) = [] := rfl

/-- Unfolding equation for the batch splitter on a non-empty list. -/
theorem chunk10_cons {α : Type} (a : α) (l : List α) :
    chunk10 (a :: l) = ((a :: l).take 10) :: chunk10 ((a :: l).drop 10) := by
  have hd : ((a :: l).drop 10).length ≤ l.length := by
    simp only [List.length_drop, List.length_cons]
    omega
  unfold chunk10
  have h1 : chunk10Fuel (a :: l).length (a :: l)
      = ((a :: l).take 10) :: chunk10Fuel l.length ((a :: l).drop 10) := rfl
  rw [h1]
  rw [chunk10Fuel_congr l.length ((a :: l).drop 10).length _ hd (le_refl _)]

/-- Induction principle following the batch splitter recursion. -/
theorem chunk10_induction {α : Type} {motive : List α → Prop}
    (h0 : motive [])
    (hstep : ∀ l : List α, l ≠ [] → motive (l.drop 10) → motive l) :
    ∀ l, motive l := by
  intro l
  generalize hn : l.length = n
  induction n using Nat.strong_induction_on generalizing l with
  | _ n ih =>
    cases l with
    | nil => exact h0
    | cons a t =>
      refine hstep (a :: t) (by simp) ?_
      have hlt : ((a :: t).drop 10).length < (a :: t).length := by
        simp; omega
      exact ih ((a :: t).drop 10).length (by rw [hn] at hlt; exact hlt) _ rfl

theorem chunk10_flatten {α : Type} (l : List α) : (chunk10 l).flatten = l := by
  induction l using chunk10_induction with
  | h0 => rfl
  | hstep l hne ih =>
    cases l with
    | nil => exact absurd rfl hne
    | cons a t =>
      rw [chunk10_cons, List.flatten_cons, ih, List.take_append_drop]

theorem chunk10_sizes {α : Type} (l : List α) :
    ∀ b ∈ chunk10 l, b.length ≤ 10 := by
  induction l using chunk10_induction with
  | h0 => intro b hb; simp [chunk10_nil] at hb
  | hstep l hne ih =>
    cases l with
    | nil => exact absurd rfl hne
    | cons a t =>
      rw [chunk10_cons]
      intro b hb
      rcases List.mem_cons.mp hb with h | h
      · subst h; simp
      · exact ih b h

theorem chunk10_ne_nil {α : Type} (l : List α) :
    ∀ b ∈ chunk10 l, b ≠ [] := by
  induction l using chunk10_induction with
  | h0 => intro b hb; simp [chunk10_nil] at hb
  | hstep l hne ih =>
    cases l with
    | nil => exact absurd rfl hne
    | cons a t =>
      rw [chunk10_cons]
      intro b hb
      rcases List.mem_cons.mp hb with h | h
      · subst h; simp
      · exact ih b h

theorem chunk10_nonnil_iff {α : Type} (l : List α) :
    chunk10 l = [] ↔ l = [] := by
  cases l with
  | nil => simp [chunk10_nil]
  | cons a t => rw [chunk10_cons]; simp

theorem chunk10_full_except_last {α : Type} (l : List α) :
    ∀ b ∈ (chunk10 l).dropLast, b.length = 10 := by
  induction l using chunk10_induction with
  | h0 => intro b hb; simp [chunk10_nil] at hb
  | hstep l hne ih =>
    cases l with
    | nil => exact absurd rfl hne
    | cons a t =>
      rw [chunk10_cons]
      intro b hb
      by_cases hrest : chunk10 ((a :: t).drop 10) = []
      · rw [hrest] at hb
        simp at hb
      · rw [List.dropLast_cons_of_ne_nil hrest] at hb
        rcases List.mem_cons.mp hb with h | h
        · subst h
          have hlong : 10 ≤ (a :: t).length := by
            by_contra hc
            push_neg at hc
            have : (a :: t).drop 10 = [] := by
              apply List.drop_eq_nil_of_le
              omega
            rw [this, chunk10_nil] at hrest
            exact hrest rfl
          simpa using List.length_take_of_le hlong
        · exact ih b h

theorem runCreateLoop_ok_append {V : Type} (B : Backend V)
    {pre : List (List (Flds V))} {resps : List (List (Rec V))}
    (hF : List.Forall₂ (fun b r => B.createB b = .ok r) pre resps)
    (suf : List (List (Flds V))) :
    runCreateLoop B (pre ++ suf) =
      { ids := (resps.flatten).map Rec.id ++ (runCreateLoop B suf).ids,
        results := resps.flatten ++ (runCreateLoop B suf).results,
        failure := (runCreateLoop B suf).failure,
        trace := pre.map Call.createCall ++ (runCreateLoop B suf).trace } := by
  induction hF with
  | nil => simp
  | cons h _ ih =>
    simp only [List.cons_append, runCreateLoop, h, List.append_eq, ih,
      List.flatten_cons, List.map_append, List.append_assoc, List.map_cons]

theorem runCreateLoop_err {V : Type} (B : Backend V)
    {bk : List (Flds V)} {e : BErr} (hk : B.createB bk = .error e)
    (rest : List (List (Flds V))) :
    runCreateLoop B (bk :: rest) =
      { ids := [], results := [], failure := some e,
        trace := [Call.createCall bk] } := by
  simp [runCreateLoop, hk]

theorem runCreateLoop_fail_at {V : Type} (B : Backend V)
    {pre : List (List (Flds V))} {resps : List (List (Rec V))}
    (hF : List.Forall₂ (fun b r => B.createB b = .ok r) pre resps)
    {bk : List (Flds V)} {e : BErr} (hk : B.createB bk = .error e)
    (rest : List (List (Flds V))) :
    runCreateLoop B (pre ++ bk :: rest) =
      { ids := (resps.flatten).map Rec.id,
        results := resps.flatten,
        failure := some e,
        trace := pre.map Call.createCall ++ [Call.createCall bk] } := by
  rw [runCreateLoop_ok_append B hF (bk :: rest), runCreateLoop_err B hk rest]
  simp

theorem runCreateLoop_all_ok {V : Type} (B : Backend V)
    {batches : List (List (Flds V))} {resps : List (List (Rec V))}
    (hF : List.Forall₂ (fun b r => B.createB b = .ok r) batches resps) :
    runCreateLoop B batches =
      { ids := (resps.flatten).map Rec.id,
        results := resps.flatten,
        failure := none,
        trace := batches.map Call.createCall } := by
  have := runCreateLoop_ok_append B hF []
  simpa [runCreateLoop] using this

theorem deleteLoop_all_ok {V : Type} (B : Backend V)
    {batches : List (List String)}
    (h : ∀ b ∈ batches, B.deleteB b = .ok ()) :
    deleteLoop B batches = (none, batches.map Call.deleteCall) := by
  induction batches with
  | nil => rfl
  | cons b rest ih =>
    have hb := h b (List.mem_cons_self b rest)
    have hr := ih (fun x hx => h x (List.mem_cons_of_mem b hx))
    simp [deleteLoop, hb, hr]

theorem deleteRecords_all_ok {V : Type} {validTables : List String}
    (B : Backend V) {tableName : String}
    (hvt : isValidTable validTables tableName = true)
    {recordIds : List String}
    (h : ∀ b ∈ chunk10 recordIds, B.deleteB b = .ok ()) :
    deleteRecords validTables B tableName recordIds =
      (.ok (), (chunk10 recordIds).map Call.deleteCall) := by
  simp [deleteRecords, hvt, deleteLoop_all_ok B h]

theorem deletedIds_append {V : Type} (a b : List (Call V)) :
    deletedIds (a ++ b) = deletedIds a ++ deletedIds b := by
  simp [deletedIds, List.filterMap_append]

theorem deletedIds_createCalls {V : Type} (bs : List (List (Flds V))) :
    deletedIds (bs.map Call.createCall) = [] := by
  induction bs with
  | nil => rfl
  | cons b rest ih => simp [deletedIds, List.filterMap] at ih ⊢

theorem deletedIds_deleteCalls {V : Type} (ids : List String) :
    deletedIds ((chunk10 ids).map (Call.deleteCall (V := V))) = ids := by
  have h : ∀ bs : List (List String),
      deletedIds (bs.map (Call.deleteCall (V := V))) = bs.flatten := by
    intro bs
    induction bs with
    | nil => rfl
    | cons b rest ih =>
      simp only [List.map_cons, deletedIds, List.filterMap] at ih ⊢
      simp_all [deletedIds]
  rw [h, chunk10_flatten]

theorem runUpdateLoop_ok_append {V : Type} (B : Backend V)
    {pre : List (List (UpdItem V))} {resps : List (List (Rec V))}
    (hF : List.Forall₂ (fun b r => B.updateB b = .ok r) pre resps)
    (suf : List (List (UpdItem V))) :
    runUpdateLoop B (pre ++ suf) =
      { processed := (pre.flatten).length + (runUpdateLoop B suf).processed,
        results := resps.flatten ++ (runUpdateLoop B suf).results,
        failure := (runUpdateLoop B suf).failure,
        trace := pre.map Call.updateCall ++ (runUpdateLoop B suf).trace } := by
  induction hF with
  | nil => simp
  | cons h _ ih =>
    simp only [List.cons_append, runUpdateLoop, h, List.append_eq, ih,
      List.flatten_cons, List.map_append, List.append_assoc, List.map_cons,
      List.length_append, UpdateLoopOut.mk.injEq]
    refine ⟨by omega, trivial, trivial, trivial⟩

theorem runUpdateLoop_err {V : Type} (B : Backend V)
    {bk : List (UpdItem V)} {e : BErr} (hk : B.updateB bk = .error e)
    (rest : List (List (UpdItem V))) :
    runUpdateLoop B (bk :: rest) =
      { processed := 0, results := [], failure := some e,
        trace := [Call.updateCall bk] } := by
  simp [runUpdateLoop, hk]

theorem runUpdateLoop_fail_at {V : Type} (B : Backend V)
    {pre : List (List (UpdItem V))} {resps : List (List (Rec V))}
    (hF : List.Forall₂ (fun b r => B.updateB b = .ok r) pre resps)
    {bk : List (UpdItem V)} {e : BErr} (hk : B.updateB bk = .error e)
    (rest : List (List (UpdItem V))) :
    runUpdateLoop B (pre ++ bk :: rest) =
      { processed := (pre.flatten).length,
        results := resps.flatten,
        failure := some e,
        trace := pre.map Call.updateCall ++ [Call.updateCall bk] } := by
  rw [runUpdateLoop_ok_append B hF (bk :: rest), runUpdateLoop_err B hk rest]
  simp

theorem runUpdateLoop_all_ok {V : Type} (B : Backend V)
    {batches : List (List (UpdItem V))} {resps : List (List (Rec V))}
    (hF : List.Forall₂ (fun b r => B.updateB b = .ok r) batches resps) :
    runUpdateLoop B batches =
      { processed := (batches.flatten).length,
        results := resps.flatten,
        failure := none,
        trace := batches.map Call.updateCall } := by
  have := runUpdateLoop_ok_append B hF []
  simp only [List.append_nil] at this
  rw [this]
  simp [runUpdateLoop]

theorem snapshotLoop_err_shape {V : Type} {validTables : List String}
    {B : Backend V} {tableName : String} {items : List (UpdItem V)}
    {e : SvcError}
    (h : (snapshotLoop validTables B tableName items).1 = .error e) :
    ∃ rid msg, e = .cannotFetchOriginal rid msg := by
  induction items with
  | nil => simp [snapshotLoop] at h
  | cons it rest ih =>
    simp only [snapshotLoop] at h
    cases hg : (getRecord validTables B tableName it.id).1 with
    | error ge =>
      rw [hg] at h
      simp at h
      exact ⟨it.id, renderMessage ge, h.symm⟩
    | ok orig =>
      rw [hg] at h
      cases hs : (snapshotLoop validTables B tableName rest).1 with
      | error se =>
        rw [hs] at h
        simp at h
        subst h
        exact ih hs
      | ok snaps =>
        rw [hs] at h
        simp at h

theorem getRecord_trace_find {V : Type} (validTables : List String)
    (B : Backend V) (tableName recordId : String) :
    ∀ c ∈ (getRecord validTables B tableName recordId).2,
      c = Call.findCall recordId := by
  intro c hc
  unfold getRecord at hc
  by_cases hvt : isValidTable validTables tableName
  · simp only [hvt, Bool.not_true, Bool.false_eq_true, if_false] at hc
    cases hfind : B.findB recordId with
    | ok r => rw [hfind] at hc; simp at hc; exact hc
    | error e => rw [hfind] at hc; simp at hc; exact hc
  · simp only [Bool.not_eq_true] at hvt
    simp [hvt] at hc

theorem snapshotLoop_trace_find {V : Type} (validTables : List String)
    (B : Backend V) (tableName : String) (items : List (UpdItem V)) :
    ∀ c ∈ (snapshotLoop validTables B tableName items).2,
      ∃ rid, c = Call.findCall rid := by
  induction items with
  | nil => intro c hc; simp [snapshotLoop] at hc
  | cons it rest ih =>
    intro c hc
    simp only [snapshotLoop] at hc
    cases hg : (getRecord validTables B tableName it.id).1 with
    | error ge =>
      rw [hg] at hc
      simp only at hc
      exact ⟨it.id, getRecord_trace_find validTables B tableName it.id c hc⟩
    | ok orig =>
      rw [hg] at hc
      cases hs : (snapshotLoop validTables B tableName rest).1 with
      | error se =>
        rw [hs] at hc
        simp only [List.mem_append] at hc
        rcases hc with hc | hc
        · exact ⟨it.id, getRecord_trace_find validTables B tableName it.id c hc⟩
        · exact ih c hc
      | ok snaps =>
        rw [hs] at hc
        simp only [List.mem_append] at hc
        rcases hc with hc | hc
        · exact ⟨it.id, getRecord_trace_find validTables B tableName it.id c hc⟩
        · exact ih c hc

theorem snapshotLoop_ok_length {V : Type} {validTables : List String}
    {B : Backend V} {tableName : String} {items : List (UpdItem V)}
    {snaps : List (UpdItem V)}
    (h : (snapshotLoop validTables B tableName items).1 = .ok snaps) :
    snaps.length = items.length := by
  induction items generalizing snaps with
  | nil =>
    simp [snapshotLoop] at h
    subst h
    rfl
  | cons it rest ih =>
    simp only [snapshotLoop] at h
    cases hg : (getRecord validTables B tableName it.id).1 with
    | error ge => rw [hg] at h; simp at h
    | ok orig =>
      rw [hg] at h
      cases hs : (snapshotLoop validTables B tableName rest).1 with
      | error se => rw [hs] at h; simp at h
      | ok snaps2 =>
        rw [hs] at h
        simp at h
        subst h
        simp [ih hs]

theorem lookup_filterMap_keys {V : Type} (origFields : Flds V)
    (keys : List String) (k : String) (v : V) :
    (keys.filterMap
        (fun x => (origFields.lookup x).map (fun w => (x, w)))).lookup k
        = some v
      ↔ (k ∈ keys ∧ origFields.lookup k = some v) := by
  induction keys with
  | nil => simp
  | cons k0 keys ih =>
    by_cases hk : k = k0
    · subst hk
      cases ho : origFields.lookup k with
      | none => simp [List.filterMap_cons, ho, ih]
      | some w => simp [List.filterMap_cons, ho, List.lookup]
    · have hb : (k == k0) = false := by
        simp [hk]
      cases ho : origFields.lookup k0 with
      | none => simp [List.filterMap_cons, ho, ih, hk]
      | some w => simp [List.filterMap_cons, ho, List.lookup, hb, ih, hk]

/-- C6: slicing the input list in steps of 10 yields contiguous groups whose
concatenation equals the input exactly (order preserved, nothing omitted or
duplicated), with every group of size at most 10 and at most one group of
size below 10, namely the last one (every non-last group has size exactly
10). -/
theorem c6_batch_split_spec {α : Type} (l : List α) :
    (chunk10 l).flatten = l
    ∧ (∀ b ∈ chunk10 l, b.length ≤ 10)
    ∧ (∀ b ∈ (chunk10 l).dropLast, b.length = 10) :=
  ⟨chunk10_flatten l, chunk10_sizes l, chunk10_full_except_last l⟩

theorem c6_witness :
    (chunk10 (List.range 25)).flatten = List.range 25
    ∧ ((List.range 25).take 10).length ≤ 10 := by
  have hmem : (List.range 25).take 10 ∈ chunk10 (List.range 25) := by decide
  exact ⟨(c6_batch_split_spec (List.range 25)).1,
    (c6_batch_split_spec (List.range 25)).2.1 _ hmem⟩

/-- C8: the slow-down layer delay function returns 0 for at most 50 hits in
the window, and `100 * 2 ^ min(hits - 50, 10)` milliseconds above the
threshold of 50, so the delay doubles per excess request with the exponent
capped at 10 — hence at most 102400 ms out of this function (the separate
`maxDelayMs = 5000` cap is applied outside it by the middleware). -/
theorem c8_delay_spec (hits : Nat) :
    (hits ≤ 50 → delayMs hits = 0)
    ∧ (50 < hits → delayMs hits = 100 * 2 ^ (min (hits - 50) 10))
    ∧ delayMs hits ≤ 102400 := by
  refine ⟨fun h => by simp [delayMs, h], fun h => by
    rw [delayMs, if_neg (by omega)], ?_⟩
  rw [delayMs]
  by_cases h : hits ≤ 50
  · simp [h]
  · rw [if_neg h]
    have hmin : min (hits - 50) 10 ≤ 10 := min_le_right _ _
    calc 100 * 2 ^ (min (hits - 50) 10) ≤ 100 * 2 ^ 10 :=
          Nat.mul_le_mul_left 100 (Nat.pow_le_pow_right (by norm_num) hmin)
      _ = 102400 := by norm_num

theorem c8_witness :
    (3 ≤ 50 ∧ delayMs 3 = 0)
    ∧ (50 < 60 ∧ delayMs 60 = 100 * 2 ^ (min (60 - 50) 10)) :=
  ⟨⟨by norm_num, (c8_delay_spec 3).1 (by norm_num)⟩,
   ⟨by norm_num, (c8_delay_spec 60).2.1 (by norm_num)⟩⟩

/-- C5: the snapshot fields kept for an update item are exactly the
requested keys that are present on the fetched original record, each with
the original record value: a key maps to `v` in the snapshot iff it occurs
among the requested field keys and maps to `v` on the original, and in
particular a key is in the snapshot iff it is both requested and present on
the original. -/
theorem c5_snapshot_fields_spec {V : Type} (reqFields origFields : Flds V)
    (k : String) :
    (∀ v : V,
      (snapshotFields reqFields origFields).lookup k = some v ↔
        (k ∈ reqFields.map Prod.fst ∧ origFields.lookup k = some v))
    ∧ (((snapshotFields reqFields origFields).lookup k).isSome ↔
        (k ∈ reqFields.map Prod.fst ∧ (origFields.lookup k).isSome)) := by
  constructor
  · intro v
    exact lookup_filterMap_keys origFields (reqFields.map Prod.fst) k v
  · constructor
    · intro h
      rcases Option.isSome_iff_exists.mp h with ⟨v, hv⟩
      have := (lookup_filterMap_keys origFields
        (reqFields.map Prod.fst) k v).mp hv
      exact ⟨this.1, by rw [this.2]; rfl⟩
    · rintro ⟨hmem, hsome⟩
      rcases Option.isSome_iff_exists.mp hsome with ⟨v, hv⟩
      have := (lookup_filterMap_keys origFields
        (reqFields.map Prod.fst) k v).mpr ⟨hmem, hv⟩
      simp only [snapshotFields]
      rw [this]
      rfl

theorem isTableNotFoundErr_classifyCreate {α : Type} (e : BErr) :
    isTableNotFoundErr (α := α) (.error (classifyCreateErr e)) = false := by
  unfold classifyCreateErr
  split <;> rfl

theorem isTableNotFoundErr_classifyUpdate {α : Type} (t : String) (e : BErr) :
    isTableNotFoundErr (α := α) (.error (classifyUpdateErr t e)) = false := by
  unfold classifyUpdateErr
  split
  · rfl
  · split <;> rfl

/-- C9: with an empty set of valid tables (before initialization succeeds,
or after the metadata fetch failed or returned no tables), `isValidTable`
accepts every table name, so the TableNotFound pre-check of the bulk
operations is bypassed entirely: neither `createRecords` nor
`updateRecords` can surface the pre-check table-not-found error in that
state, and table existence is enforced only by the backend calls. -/
theorem c9_empty_valid_tables_bypass :
    (∀ tableName, isValidTable [] tableName = true)
    ∧ (∀ (V : Type) (B : Backend V) (tableName : String)
        (records : List (Flds V)),
        isTableNotFoundErr (createRecords [] B tableName records).1 = false)
    ∧ (∀ (V : Type) (B : Backend V) (tableName : String)
        (records : List (UpdItem V)),
        isTableNotFoundErr (updateRecords [] B tableName records).1 = false) := by
  refine ⟨fun _ => rfl, ?_, ?_⟩
  · intro V B tableName records
    unfold createRecords
    simp only [isValidTable, List.isEmpty_nil, Bool.true_or, Bool.not_true,
      Bool.false_eq_true, if_false]
    cases (runCreateLoop B (chunk10 records)).failure with
    | none => rfl
    | some e =>
      simp only
      split
      · cases hd : (deleteRecords [] B tableName
            (runCreateLoop B (chunk10 records)).ids).1 with
        | ok u => simp only [hd, isTableNotFoundErr_classifyCreate]
        | error de => simp only [hd]; rfl
      · exact isTableNotFoundErr_classifyCreate e
  · intro V B tableName records
    unfold updateRecords
    simp only [isValidTable, List.isEmpty_nil, Bool.true_or, Bool.not_true,
      Bool.false_eq_true, if_false]
    cases hs : (snapshotLoop [] B tableName records).1 with
    | error e =>
      obtain ⟨rid, msg, he⟩ := snapshotLoop_err_shape hs
      subst he
      rfl
    | ok originals =>
      simp only
      cases (runUpdateLoop B (chunk10 records)).failure with
      | none => rfl
      | some e =>
        simp only
        split
        · cases hr : (updateNoRollback B
              (originals.take (runUpdateLoop B (chunk10 records)).processed)).1 with
          | ok u => simp only [hr, isTableNotFoundErr_classifyUpdate]
          | error re => simp only [hr]; rfl
        · exact isTableNotFoundErr_classifyUpdate tableName e

theorem c9_witness :
    isValidTable [] "Projects" = true
    ∧ isTableNotFoundErr (createRecords [] okBackend "Projects"
        (witCreateInput 3)).1 = false :=
  ⟨c9_empty_valid_tables_bypass.1 "Projects",
   c9_empty_valid_tables_bypass.2.1 Nat okBackend "Projects" (witCreateInput 3)⟩

/-- C10: the bulk endpoints reject a request body that is an array of more
than 100 items with error code BULK_LIMIT_EXCEEDED, with an empty backend
call trace and before per-record validation can matter (the rejection holds
for arrays of arbitrary, even malformed, items), and likewise reject a
non-array or empty-array body with INVALID_REQUEST_BODY and an empty trace;
in all these cases no backend call is issued, so backend state is
unchanged. -/
theorem c10_bulk_limit_prechecks {V : Type} (validTables : List String)
    (B : Backend V) (tableName : String) :
    (∀ items : List (RawCreateItem V), 100 < items.length →
      bulkCreateHandler validTables B tableName (.arr items)
        = (.failure 400 "BULK_LIMIT_EXCEEDED", []))
    ∧ bulkCreateHandler validTables B tableName .notArray
        = (.failure 400 "INVALID_REQUEST_BODY", [])
    ∧ bulkCreateHandler validTables B tableName (.arr [])
        = (.failure 400 "INVALID_REQUEST_BODY", [])
    ∧ (∀ items : List (RawUpdateItem V), 100 < items.length →
      bulkUpdateHandler validTables B tableName (.arr items)
        = (.failure 400 "BULK_LIMIT_EXCEEDED", []))
    ∧ bulkUpdateHandler validTables B tableName .notArray
        = (.failure 400 "INVALID_REQUEST_BODY", [])
    ∧ bulkUpdateHandler validTables B tableName (.arr [])
        = (.failure 400 "INVALID_REQUEST_BODY", []) := by
  refine ⟨?_, rfl, rfl, ?_, rfl, rfl⟩
  · intro items h
    show (if items.length = 0 then _ else if 100 < items.length then _ else _) = _
    rw [if_neg (by omega), if_pos h]
  · intro items h
    show (if items.length = 0 then _ else if 100 < items.length then _ else _) = _
    rw [if_neg (by omega), if_pos h]

theorem c10_witness :
    100 < (List.replicate 101 (RawCreateItem.malformed (V := Nat))).length
    ∧ bulkCreateHandler [] okBackend "Tasks"
        (.arr (List.replicate 101 (RawCreateItem.malformed (V := Nat))))
        = (.failure 400 "BULK_LIMIT_EXCEEDED", []) :=
  ⟨by simp,
   (c10_bulk_limit_prechecks [] okBackend "Tasks").1
     (List.replicate 101 RawCreateItem.malformed) (by simp)⟩

theorem flatten_length_of_forall₂ {α β : Type}
    {l₁ : List (List α)} {l₂ : List (List β)}
    (h : List.Forall₂ (fun a b => b.length = a.length) l₁ l₂) :
    (l₂.flatten).length = (l₁.flatten).length := by
  induction h with
  | nil => rfl
  | cons hab _ ih => simp [hab, ih]

theorem forall₂_map_self {α β : Type} (g : α → β) (P : α → β → Prop)
    (h : ∀ a, P a (g a)) : ∀ l : List α, List.Forall₂ P l (l.map g) := by
  intro l
  induction l with
  | nil => constructor
  | cons a t ih => exact List.Forall₂.cons (h a) ih

/-- C7: when every batch call of a bulk create succeeds, `createRecords`
returns exactly one record per input item (N records for N items), in batch
order following the input order with each batch in backend-returned order
(the result is the concatenation of the per-batch responses), and the call
trace consists of the create calls only — no delete call is issued. -/
theorem c7_create_all_success {V : Type} {validTables : List String}
    {B : Backend V} {tableName : String} {input : List (Flds V)}
    {resps : List (List (Rec V))}
    (hvt : isValidTable validTables tableName = true)
    (hF : List.Forall₂ (fun b r => B.createB b = .ok r) (chunk10 input) resps)
    (hlen : List.Forall₂ (fun (b : List (Flds V)) (r : List (Rec V)) =>
        r.length = b.length) (chunk10 input) resps) :
    createRecords validTables B tableName input
        = (.ok resps.flatten, (chunk10 input).map Call.createCall)
    ∧ (resps.flatten).length = input.length
    ∧ ∀ ids, Call.deleteCall ids ∉
        (createRecords validTables B tableName input).2 := by
  have hrun := runCreateLoop_all_ok B hF
  have heq : createRecords validTables B tableName input
      = (.ok resps.flatten, (chunk10 input).map Call.createCall) := by
    simp only [createRecords]
    rw [if_neg (by simp [hvt]), hrun]
  have hlen2 : (resps.flatten).length = input.length := by
    rw [flatten_length_of_forall₂ hlen, chunk10_flatten]
  refine ⟨heq, hlen2, ?_⟩
  intro ids hmem
  rw [heq] at hmem
  simp at hmem

theorem c7_witness :
    createRecords [] okBackend "Tasks" (witCreateInput 11)
      = (.ok (((chunk10 (witCreateInput 11)).map
            (fun b => b.map (fun f =>
              ({ id := "id", fields := f, createdTime := "t0" } : Rec Nat)))).flatten),
         (chunk10 (witCreateInput 11)).map Call.createCall) := by
  have hF : List.Forall₂
      (fun b r => okBackend.createB b = Except.ok r)
      (chunk10 (witCreateInput 11))
      ((chunk10 (witCreateInput 11)).map (fun b => b.map (fun f =>
        ({ id := "id", fields := f, createdTime := "t0" } : Rec Nat)))) := by
    apply forall₂_map_self
    intro a
    rfl
  have hlen : List.Forall₂
      (fun (b : List (Flds Nat)) (r : List (Rec Nat)) => r.length = b.length)
      (chunk10 (witCreateInput 11))
      ((chunk10 (witCreateInput 11)).map (fun b => b.map (fun f =>
        ({ id := "id", fields := f, createdTime := "t0" } : Rec Nat)))) := by
    apply forall₂_map_self
    intro a
    simp
  exact (c7_create_all_success
    (show isValidTable [] "Tasks" = true from rfl) hF hlen).1

/-- C1: if batch k of a bulk create fails after batches 1..k-1 committed,
the compensating deletes receive exactly the ids of the records created by
those committed batches, in creation order (so in particular no id from the
failing batch or any later batch, none of which ever created a record), and
if the very first batch fails no delete call is issued at all. -/
theorem c1_create_rollback_exact_ids {V : Type} {validTables : List String}
    {B : Backend V} {tableName : String} {input : List (Flds V)}
    {pre rest : List (List (Flds V))} {bk : List (Flds V)}
    {resps : List (List (Rec V))} {e : BErr}
    (hvt : isValidTable validTables tableName = true)
    (hchunk : chunk10 input = pre ++ bk :: rest)
    (hF : List.Forall₂ (fun b r => B.createB b = .ok r) pre resps)
    (hk : B.createB bk = .error e)
    (hdel : ∀ b ∈ chunk10 ((resps.flatten).map Rec.id), B.deleteB b = .ok ()) :
    deletedIds (createRecords validTables B tableName input).2
        = (resps.flatten).map Rec.id
    ∧ (pre = [] → ∀ ids,
        Call.deleteCall ids ∉ (createRecords validTables B tableName input).2) := by
  have hrun : runCreateLoop B (chunk10 input) =
      { ids := (resps.flatten).map Rec.id,
        results := resps.flatten,
        failure := some e,
        trace := pre.map Call.createCall ++ [Call.createCall bk] } := by
    rw [hchunk]
    exact runCreateLoop_fail_at B hF hk rest
  by_cases hjm : (resps.flatten).map Rec.id = []
  · have heq : createRecords validTables B tableName input
        = (.error (classifyCreateErr e),
           pre.map Call.createCall ++ [Call.createCall bk]) := by
      simp only [createRecords]
      rw [if_neg (by simp [hvt]), hrun]
      simp [hjm]
    rw [heq]
    constructor
    · rw [hjm]
      have hmap : pre.map Call.createCall ++ [Call.createCall bk]
          = (pre ++ [bk]).map (Call.createCall (V := V)) := by
        simp
      show deletedIds (pre.map Call.createCall ++ [Call.createCall bk]) = []
      rw [hmap, deletedIds_createCalls]
    · intro _ ids hmem
      simp at hmem
  · have hpos : 0 < ((resps.flatten).map Rec.id).length := by
      cases hx : (resps.flatten).map Rec.id with
      | nil => exact absurd hx hjm
      | cons a t => simp
    have hdelrun := deleteRecords_all_ok B hvt hdel
    have heq : createRecords validTables B tableName input
        = (.error (classifyCreateErr e),
           (pre.map Call.createCall ++ [Call.createCall bk])
             ++ (chunk10 ((resps.flatten).map Rec.id)).map Call.deleteCall) := by
      simp only [createRecords]
      rw [if_neg (by simp [hvt]), hrun]
      simp only [hpos, if_pos, hdelrun]
    rw [heq]
    constructor
    · show deletedIds ((pre.map Call.createCall ++ [Call.createCall bk])
          ++ (chunk10 ((resps.flatten).map Rec.id)).map Call.deleteCall)
        = (resps.flatten).map Rec.id
      rw [deletedIds_append]
      have hmap : pre.map Call.createCall ++ [Call.createCall bk]
          = (pre ++ [bk]).map (Call.createCall (V := V)) := by
        simp
      rw [hmap, deletedIds_createCalls, deletedIds_deleteCalls]
      rfl
    · intro hpre
      exfalso
      subst hpre
      cases hF
      exact hjm rfl

theorem c1_witness :
    deletedIds (createRecords [] failTailCreateBackend "Tasks"
        (witCreateInput 11)).2
      = ((((chunk10 (witCreateInput 11)).take 1).map
          (fun b => b.map (fun f =>
            ({ id := "cr", fields := f, createdTime := "t0" } : Rec Nat)))).flatten).map
          Rec.id := by
  have hchunk : chunk10 (witCreateInput 11)
      = [(witCreateInput 11).take 10] ++ ((witCreateInput 11).drop 10) :: [] := by
    rfl
  have hF : List.Forall₂
      (fun b r => failTailCreateBackend.createB b = .ok r)
      [(witCreateInput 11).take 10]
      [((witCreateInput 11).take 10).map (fun f =>
        ({ id := "cr", fields := f, createdTime := "t0" } : Rec Nat))] := by
    refine List.Forall₂.cons ?_ List.Forall₂.nil
    rfl
  have hk : failTailCreateBackend.createB ((witCreateInput 11).drop 10)
      = .error { statusCode := some 422, message := "boom" } := rfl
  have hdel : ∀ b ∈ chunk10 (((([((witCreateInput 11).take 10).map (fun f =>
      ({ id := "cr", fields := f, createdTime := "t0" } : Rec Nat))] :
        List (List (Rec Nat))).flatten)).map Rec.id),
      failTailCreateBackend.deleteB b = .ok () := by
    intro b _
    rfl
  have h := (c1_create_rollback_exact_ids
    (show isValidTable [] "Tasks" = true from rfl) hchunk hF hk hdel).1
  rw [h]
  rfl

/-- C2: if any snapshot fetch of a bulk update fails, the whole operation
aborts before any write: the result is the dedicated rollback-support error
(the realization of the spec kind RollbackUnsupported, produced by no other
code path), the full call trace consists of find calls only — zero create,
update or delete calls reach the backend, so backend state is unchanged —
and the error value is distinct from every write-time error
(`classifyUpdateErr` result or rollback-failure error). -/
theorem c2_update_snapshot_abort {V : Type} {validTables : List String}
    {B : Backend V} {tableName : String} {items : List (UpdItem V)}
    {e : SvcError}
    (hvt : isValidTable validTables tableName = true)
    (hsnap : (snapshotLoop validTables B tableName items).1 = .error e) :
    updateRecords validTables B tableName items
        = (.error e, (snapshotLoop validTables B tableName items).2)
    ∧ (∃ rid msg, e = SvcError.cannotFetchOriginal rid msg)
    ∧ (∀ c ∈ (updateRecords validTables B tableName items).2,
        isWriteCall c = false)
    ∧ (∀ be, e ≠ classifyUpdateErr tableName be)
    ∧ (∀ m n, e ≠ SvcError.updateRollbackFailed m n) := by
  obtain ⟨rid, msg, he⟩ := snapshotLoop_err_shape hsnap
  have heq : updateRecords validTables B tableName items
      = (.error e, (snapshotLoop validTables B tableName items).2) := by
    simp only [updateRecords]
    rw [if_neg (by simp [hvt]), hsnap]
  refine ⟨heq, ⟨rid, msg, he⟩, ?_, ?_, ?_⟩
  · intro c hc
    rw [heq] at hc
    obtain ⟨r, hr⟩ := snapshotLoop_trace_find validTables B tableName items c hc
    rw [hr]
    rfl
  · intro be
    subst he
    unfold classifyUpdateErr
    split
    · simp
    · split <;> simp
  · intro m n
    subst he
    simp

theorem c2_witness :
    updateRecords [] failFindBackend "Tasks" (witUpdateInput 3)
      = (.error (SvcError.cannotFetchOriginal "u0"
          (renderMessage (SvcError.recordNotFoundIn "u0" "Tasks"))),
         [Call.findCall "u0"]) := by
  have hsnap : (snapshotLoop [] failFindBackend "Tasks" (witUpdateInput 3)).1
      = .error (SvcError.cannotFetchOriginal "u0"
          (renderMessage (SvcError.recordNotFoundIn "u0" "Tasks"))) := rfl
  have h := (c2_update_snapshot_abort
    (show isValidTable [] "Tasks" = true from rfl) hsnap).1
  rw [h]
  rfl

/-- C3: when a batch fails mid-way through a bulk create or bulk update and
the compensating rollback itself fails, the surfaced error is the dedicated
rollback-failure error whose affected count equals the number of records
successfully written before the failure — strictly less than the full
request size — and whose message explicitly warns that manual cleanup or
restoration is required, naming that count. -/
theorem c3_rollback_failure_affected_count {V : Type} :
    (∀ (validTables : List String) (B : Backend V) (tableName : String)
       (input : List (Flds V)) (pre rest : List (List (Flds V)))
       (bk : List (Flds V)) (resps : List (List (Rec V))) (e : BErr)
       (de : SvcError),
       isValidTable validTables tableName = true →
       chunk10 input = pre ++ bk :: rest →
       List.Forall₂ (fun b r => B.createB b = .ok r) pre resps →
       List.Forall₂ (fun (b : List (Flds V)) (r : List (Rec V)) =>
         r.length = b.length) pre resps →
       B.createB bk = .error e →
       resps.flatten ≠ [] →
       (deleteRecords validTables B tableName ((resps.flatten).map Rec.id)).1
         = .error de →
       (createRecords validTables B tableName input).1
           = .error (.createRollbackFailed (createOrigMsg e)
               (resps.flatten).length)
       ∧ (resps.flatten).length < input.length
       ∧ renderMessage (.createRollbackFailed (createOrigMsg e)
           (resps.flatten).length)
           = createOrigMsg e ++ ". WARNING: Failed to rollback "
             ++ toString (resps.flatten).length
             ++ " partially created records. Manual cleanup may be required.")
    ∧ (∀ (validTables : List String) (B : Backend V) (tableName : String)
       (items originals : List (UpdItem V))
       (pre rest : List (List (UpdItem V))) (bk : List (UpdItem V))
       (uresps : List (List (Rec V))) (e re : BErr),
       isValidTable validTables tableName = true →
       (snapshotLoop validTables B tableName items).1 = .ok originals →
       chunk10 items = pre ++ bk :: rest →
       List.Forall₂ (fun b r => B.updateB b = .ok r) pre uresps →
       B.updateB bk = .error e →
       pre ≠ [] →
       (updateNoRollback B (originals.take (pre.flatten).length)).1
         = .error re →
       (updateRecords validTables B tableName items).1
           = .error (.updateRollbackFailed (updateOrigMsg e)
               (pre.flatten).length)
       ∧ (pre.flatten).length < items.length
       ∧ renderMessage (.updateRollbackFailed (updateOrigMsg e)
           (pre.flatten).length)
           = updateOrigMsg e ++ ". WARNING: Failed to rollback "
             ++ toString (pre.flatten).length
             ++ " partially updated records. Manual restoration may be required.") := by
  constructor
  · intro validTables B tableName input pre rest bk resps e de
      hvt hchunk hF hlen hk hne hdel
    have hrun : runCreateLoop B (chunk10 input) =
        { ids := (resps.flatten).map Rec.id,
          results := resps.flatten,
          failure := some e,
          trace := pre.map Call.createCall ++ [Call.createCall bk] } := by
      rw [hchunk]
      exact runCreateLoop_fail_at B hF hk rest
    have hposf : 0 < (resps.flatten).length := List.length_pos.mpr hne
    have hpos : 0 < ((resps.flatten).map Rec.id).length := by
      rw [List.length_map]
      exact hposf
    have heq : (createRecords validTables B tableName input).1
        = .error (.createRollbackFailed (createOrigMsg e)
            (resps.flatten).length) := by
      simp only [createRecords]
      rw [if_neg (by simp [hvt]), hrun]
      simp only []
      rw [if_pos hpos, hdel]
      simp only [List.length_map]
    have hbk : bk ≠ [] := chunk10_ne_nil input bk
      (by rw [hchunk]; exact List.mem_append_right _ (List.mem_cons_self _ _))
    have hbklen : 0 < bk.length := List.length_pos.mpr hbk
    have h1 : (resps.flatten).length = (pre.flatten).length :=
      flatten_length_of_forall₂ hlen
    have h2 : input.length
        = (pre.flatten).length + (bk.length + (rest.flatten).length) := by
      conv_lhs => rw [← chunk10_flatten input, hchunk]
      simp
    exact ⟨heq, by omega, rfl⟩
  · intro validTables B tableName items originals pre rest bk uresps e re
      hvt hsnap hchunk hF hk hne hroll
    have hrun : runUpdateLoop B (chunk10 items) =
        { processed := (pre.flatten).length,
          results := uresps.flatten,
          failure := some e,
          trace := pre.map Call.updateCall ++ [Call.updateCall bk] } := by
      rw [hchunk]
      exact runUpdateLoop_fail_at B hF hk rest
    have hbk : bk ≠ [] := chunk10_ne_nil items bk
      (by rw [hchunk]; exact List.mem_append_right _ (List.mem_cons_self _ _))
    have hbklen : 0 < bk.length := List.length_pos.mpr hbk
    have h2 : items.length
        = (pre.flatten).length + (bk.length + (rest.flatten).length) := by
      conv_lhs => rw [← chunk10_flatten items, hchunk]
      simp
    have horig : originals.length = items.length := snapshotLoop_ok_length hsnap
    have hpre0 : 0 < (pre.flatten).length := by
      cases hp : pre with
      | nil => exact absurd hp hne
      | cons p0 ps =>
        have hp0 : p0 ∈ chunk10 items := by
          rw [hchunk, hp]
          exact List.mem_append_left _ (List.mem_cons_self _ _)
        have hp0len : 0 < p0.length :=
          List.length_pos.mpr (chunk10_ne_nil items p0 hp0)
        simp only [hp, List.flatten_cons, List.length_append]
        omega
    have hcond : 0 < (pre.flatten).length ∧ 0 < originals.length :=
      ⟨hpre0, by omega⟩
    have heq : (updateRecords validTables B tableName items).1
        = .error (.updateRollbackFailed (updateOrigMsg e)
            (pre.flatten).length) := by
      simp only [updateRecords]
      rw [if_neg (by simp [hvt]), hsnap]
      simp only []
      rw [hrun]
      simp only []
      rw [if_pos hcond, hroll]
    exact ⟨heq, by omega, rfl⟩

theorem c3_witness :
    (createRecords [] failDeleteBackend "Tasks" (witCreateInput 11)).1
      = .error (.createRollbackFailed
          (createOrigMsg { statusCode := some 422, message := "boom" }) 10)
    ∧ (updateRecords [] failTailUpdateBackend "Tasks" (witUpdateInput 11)).1
      = .error (.updateRollbackFailed
          (updateOrigMsg { statusCode := some 500, message := "wfail" }) 10) := by
  constructor
  · have hchunk : chunk10 (witCreateInput 11)
        = [(witCreateInput 11).take 10]
            ++ ((witCreateInput 11).drop 10) :: [] := rfl
    have hF : List.Forall₂
        (fun b r => failDeleteBackend.createB b = .ok r)
        [(witCreateInput 11).take 10]
        [((witCreateInput 11).take 10).map (fun f =>
          ({ id := "cr", fields := f, createdTime := "t0" } : Rec Nat))] :=
      List.Forall₂.cons rfl List.Forall₂.nil
    have hlen : List.Forall₂
        (fun (b : List (Flds Nat)) (r : List (Rec Nat)) =>
          r.length = b.length)
        [(witCreateInput 11).take 10]
        [((witCreateInput 11).take 10).map (fun f =>
          ({ id := "cr", fields := f, createdTime := "t0" } : Rec Nat))] :=
      List.Forall₂.cons (by simp) List.Forall₂.nil
    have hk : failDeleteBackend.createB ((witCreateInput 11).drop 10)
        = .error { statusCode := some 422, message := "boom" } := rfl
    have hne : ([((witCreateInput 11).take 10).map (fun f =>
        ({ id := "cr", fields := f, createdTime := "t0" } : Rec Nat))] :
          List (List (Rec Nat))).flatten ≠ [] := by
      simp [witCreateInput]
    have hdel : (deleteRecords [] failDeleteBackend "Tasks"
        ((([((witCreateInput 11).take 10).map (fun f =>
          ({ id := "cr", fields := f, createdTime := "t0" } : Rec Nat))] :
            List (List (Rec Nat))).flatten).map Rec.id)).1
        = .error (.backendRaw { statusCode := none, message := "delfail" }) := rfl
    exact (c3_rollback_failure_affected_count.1 [] failDeleteBackend "Tasks"
      (witCreateInput 11) [(witCreateInput 11).take 10] []
      ((witCreateInput 11).drop 10) _ _ _
      (show isValidTable [] "Tasks" = true from rfl)
      hchunk hF hlen hk hne hdel).1
  · have hsnap : (snapshotLoop [] failTailUpdateBackend "Tasks"
        (witUpdateInput 11)).1
        = .ok ((witUpdateInput 11).map (fun it =>
            ({ id := it.id, fields := [] } : UpdItem Nat))) := rfl
    have hchunk : chunk10 (witUpdateInput 11)
        = [(witUpdateInput 11).take 10]
            ++ ((witUpdateInput 11).drop 10) :: [] := rfl
    have hF : List.Forall₂
        (fun b r => failTailUpdateBackend.updateB b = .ok r)
        [(witUpdateInput 11).take 10]
        [((witUpdateInput 11).take 10).map (fun u =>
          ({ id := u.id, fields := u.fields, createdTime := "t0" } : Rec Nat))] :=
      List.Forall₂.cons rfl List.Forall₂.nil
    have hk : failTailUpdateBackend.updateB ((witUpdateInput 11).drop 10)
        = .error { statusCode := some 500, message := "wfail" } := rfl
    have hne : ([(witUpdateInput 11).take 10] :
        List (List (UpdItem Nat))) ≠ [] := by
      simp
    have hroll : (updateNoRollback failTailUpdateBackend
        (((witUpdateInput 11).map (fun it =>
          ({ id := it.id, fields := [] } : UpdItem Nat))).take
            (([(witUpdateInput 11).take 10] :
              List (List (UpdItem Nat))).flatten).length)).1
        = .error { statusCode := some 422, message := "rollfail" } := rfl
    have h := (c3_rollback_failure_affected_count.2 [] failTailUpdateBackend
      "Tasks" (witUpdateInput 11)
      ((witUpdateInput 11).map (fun it =>
        ({ id := it.id, fields := [] } : UpdItem Nat)))
      [(witUpdateInput 11).take 10] [] ((witUpdateInput 11).drop 10) _ _ _
      (show isValidTable [] "Tasks" = true from rfl)
      hsnap hchunk hF hk hne hroll).1
    exact h

/-- C4 counterexample: an 11-item bulk create against a backend whose second
batch fails with a 422 and whose deletes succeed.  The rollback runs and
fully succeeds (the trace shows the compensating delete of the ten created
ids), yet the surfaced error is the bare classified original error — its
value and message are exactly those of a run in which the very first batch
failed and nothing was ever rolled back, so the error carries no annotation
that restoration succeeded. -/
theorem c4_counterexample :
    (createRecords [] failTailCreateBackend "Tasks" (witCreateInput 11)).1
        = .error (.invalidFieldData "boom")
    ∧ deletedIds (createRecords [] failTailCreateBackend "Tasks"
        (witCreateInput 11)).2 = List.replicate 10 "cr"
    ∧ failTailCreateBackend.deleteB (List.replicate 10 "cr") = .ok ()
    ∧ (createRecords [] failTailCreateBackend "Tasks" (witCreateInput 1)).1
        = .error (.invalidFieldData "boom")
    ∧ deletedIds (createRecords [] failTailCreateBackend "Tasks"
        (witCreateInput 1)).2 = []
    ∧ (createRecords [] failTailCreateBackend "Tasks" (witCreateInput 11)).1
        = (createRecords [] failTailCreateBackend "Tasks" (witCreateInput 1)).1
    ∧ renderMessage (.invalidFieldData "boom") = "Invalid field data: boom" :=
  ⟨rfl, rfl, rfl, rfl, rfl, rfl, rfl⟩

/-- C4 (amended): when a mid-operation batch failure occurs and the
compensating rollback fully succeeds, the error surfaced to the caller is
the original write error classified per the taxonomy (e.g. InvalidFieldData
for backend code 422) — but it carries no annotation that restoration
succeeded: restoration success is only logged to the console, and the
surfaced value is exactly `classifyCreateErr`/`classifyUpdateErr` of the
original backend error, the same value surfaced when no rollback ran. -/
theorem c4_restored_surfaces_original_error {V : Type} :
    (∀ (validTables : List String) (B : Backend V) (tableName : String)
       (input : List (Flds V)) (pre rest : List (List (Flds V)))
       (bk : List (Flds V)) (resps : List (List (Rec V))) (e : BErr),
       isValidTable validTables tableName = true →
       chunk10 input = pre ++ bk :: rest →
       List.Forall₂ (fun b r => B.createB b = .ok r) pre resps →
       B.createB bk = .error e →
       (∀ b ∈ chunk10 ((resps.flatten).map Rec.id), B.deleteB b = .ok ()) →
       (createRecords validTables B tableName input).1
         = .error (classifyCreateErr e))
    ∧ (∀ (validTables : List String) (B : Backend V) (tableName : String)
       (items originals : List (UpdItem V))
       (pre rest : List (List (UpdItem V))) (bk : List (UpdItem V))
       (uresps : List (List (Rec V))) (e : BErr)
       (rs : List (Rec V)),
       isValidTable validTables tableName = true →
       (snapshotLoop validTables B tableName items).1 = .ok originals →
       chunk10 items = pre ++ bk :: rest →
       List.Forall₂ (fun b r => B.updateB b = .ok r) pre uresps →
       B.updateB bk = .error e →
       (updateNoRollback B (originals.take (pre.flatten).length)).1 = .ok rs →
       (updateRecords validTables B tableName items).1
         = .error (classifyUpdateErr tableName e)) := by
  constructor
  · intro validTables B tableName input pre rest bk resps e
      hvt hchunk hF hk hdel
    have hrun : runCreateLoop B (chunk10 input) =
        { ids := (resps.flatten).map Rec.id,
          results := resps.flatten,
          failure := some e,
          trace := pre.map Call.createCall ++ [Call.createCall bk] } := by
      rw [hchunk]
      exact runCreateLoop_fail_at B hF hk rest
    by_cases hjm : (resps.flatten).map Rec.id = []
    · simp only [createRecords]
      rw [if_neg (by simp [hvt]), hrun]
      simp [hjm]
    · have hpos : 0 < ((resps.flatten).map Rec.id).length := by
        cases hx : (resps.flatten).map Rec.id with
        | nil => exact absurd hx hjm
        | cons a t => simp
      have hdelrun := deleteRecords_all_ok B hvt hdel
      simp only [createRecords]
      rw [if_neg (by simp [hvt]), hrun]
      simp only [hpos, if_pos, hdelrun]
  · intro validTables B tableName items originals pre rest bk uresps e rs
      hvt hsnap hchunk hF hk hroll
    have hrun : runUpdateLoop B (chunk10 items) =
        { processed := (pre.flatten).length,
          results := uresps.flatten,
          failure := some e,
          trace := pre.map Call.updateCall ++ [Call.updateCall bk] } := by
      rw [hchunk]
      exact runUpdateLoop_fail_at B hF hk rest
    by_cases hcond : 0 < (pre.flatten).length ∧ 0 < originals.length
    · simp only [updateRecords]
      rw [if_neg (by simp [hvt]), hsnap]
      simp only []
      rw [hrun]
      simp only []
      rw [if_pos hcond, hroll]
    · simp only [updateRecords]
      rw [if_neg (by simp [hvt]), hsnap]
      simp only []
      rw [hrun]
      simp only []
      rw [if_neg hcond]

theorem c4_witness :
    (createRecords [] failTailCreateBackend "Projects" (witCreateInput 11)).1
      = .error (classifyCreateErr { statusCode := some 422, message := "boom" }) := by
  have hchunk : chunk10 (witCreateInput 11)
      = [(witCreateInput 11).take 10]
          ++ ((witCreateInput 11).drop 10) :: [] := rfl
  have hF : List.Forall₂
      (fun b r => failTailCreateBackend.createB b = .ok r)
      [(witCreateInput 11).take 10]
      [((witCreateInput 11).take 10).map (fun f =>
        ({ id := "cr", fields := f, createdTime := "t0" } : Rec Nat))] :=
    List.Forall₂.cons rfl List.Forall₂.nil
  have hk : failTailCreateBackend.createB ((witCreateInput 11).drop 10)
      = .error { statusCode := some 422, message := "boom" } := rfl
  have hdel : ∀ b ∈ chunk10 (((([((witCreateInput 11).take 10).map (fun f =>
      ({ id := "cr", fields := f, createdTime := "t0" } : Rec Nat))] :
        List (List (Rec Nat))).flatten)).map Rec.id),
      failTailCreateBackend.deleteB b = .ok () := fun _ _ => rfl
  exact c4_restored_surfaces_original_error.1 [] failTailCreateBackend
    "Projects" (witCreateInput 11) [(witCreateInput 11).take 10] []
    ((witCreateInput 11).drop 10) _ _
    (show isValidTable [] "Projects" = true from rfl)
    hchunk hF hk hdel

end ISO9000bot
